import Mathlib

/-!
Verification of the ESM-Python-Nairobi tutorial repository against its
natural-language specification.

The repository assembles small PyPSA networks in two tutorial notebooks
(`01_getting_started.ipynb`, `08_diy_solar_simulation.ipynb`) and delegates
every solve to the external library.  The specification describes the
data-assembly and evaluation-mode contract (Model Builder, Time-Series
Supplier, Evaluator, Result Reader).  The builder and evaluator themselves
are not part of the repository's sources, so they are modelled here from the
specification's words; the concrete model data (profiles, capacities,
efficiencies, costs) is transcribed from the notebooks, which are the
authoritative source.

All quantities are rationals; 0.15 kW is written 3/20, 0.95 is 19/20, and
so on.
-/

/-! ### Operational-optimization model (spec section 4.3, Scenario B data from
tutorial 08) -/

/-- Modelled from the spec: the data of a linear operational-optimization
problem over `n` snapshots with `nG` generators and `nS` storage components.
The evaluator itself (library `network.optimize`) is not in the repository's
sources; fields follow the spec's section 3/4.3 vocabulary and PyPSA's
attribute names used by the notebooks. -/
structure OpModel (n nG nS : ℕ) where
  genPNom : Fin nG → ℚ
  genMarginalCost : Fin nG → ℚ
  genPMinPu : Fin nG → Fin n → ℚ
  genPMaxPu : Fin nG → Fin n → ℚ
  stENom : Fin nS → ℚ
  stPNom : Fin nS → ℚ
  stEInitial : Fin nS → ℚ
  stEMinPu : Fin nS → ℚ
  stEMaxPu : Fin nS → ℚ
  stEffStore : Fin nS → ℚ
  stEffDispatch : Fin nS → ℚ
  stMarginalCost : Fin nS → ℚ
  stECyclic : Fin nS → Bool
  load : Fin n → ℚ

/-- A candidate dispatch for an operational-optimization problem: per-snapshot
generator output, storage charge/discharge power, and the storage
state-of-energy trajectory (one value per snapshot plus the initial point). -/
structure OpSolution (n nG nS : ℕ) where
  genP : Fin nG → Fin n → ℚ
  stCharge : Fin nS → Fin n → ℚ
  stDischarge : Fin nS → Fin n → ℚ
  stSoc : Fin nS → Fin (n + 1) → ℚ

/-- Round-trip efficiency of a storage component: charging efficiency times
discharging efficiency (spec: "round-trip efficiency 0.9×0.9"). -/
def roundTrip {n nG nS : ℕ} (m : OpModel n nG nS) (st : Fin nS) : ℚ :=
  m.stEffStore st * m.stEffDispatch st

/-- Modelled from the spec: the constraint set of Operational Optimization
mode ("per-snapshot nodal power balance, per-component capacity bounds, and
(for storage) charge/discharge efficiency and state-of-energy continuity
across consecutive snapshots ... bounded by configured minimum/maximum
state-of-energy fractions of nominal capacity"). -/
structure Feasible {n nG nS : ℕ} (m : OpModel n nG nS) (s : OpSolution n nG nS) : Prop where
  genWithinLimits : ∀ g t, m.genPMinPu g t * m.genPNom g ≤ s.genP g t ∧
    s.genP g t ≤ m.genPMaxPu g t * m.genPNom g
  storePowerWithinLimits : ∀ st t, 0 ≤ s.stCharge st t ∧ s.stCharge st t ≤ m.stPNom st ∧
    0 ≤ s.stDischarge st t ∧ s.stDischarge st t ≤ m.stPNom st
  socInitial : ∀ st, s.stSoc st 0 = m.stEInitial st
  socContinuity : ∀ st (t : Fin n), s.stSoc st t.succ =
    s.stSoc st t.castSucc + roundTrip m st * (s.stCharge st t - s.stDischarge st t)
  socWithinBounds : ∀ st t, m.stEMinPu st * m.stENom st ≤ s.stSoc st t ∧
    s.stSoc st t ≤ m.stEMaxPu st * m.stENom st
  socCyclic : ∀ st, m.stECyclic st = true → s.stSoc st (Fin.last n) = s.stSoc st 0
  powerBalance : ∀ t, (∑ g, s.genP g t) +
    (∑ st, (s.stDischarge st t - s.stCharge st t)) = m.load t

/-- Objective of the operational solve: total marginal cost of generator
dispatch and storage dispatch over the horizon. -/
def cost {n nG nS : ℕ} (m : OpModel n nG nS) (s : OpSolution n nG nS) : ℚ :=
  ∑ t, ((∑ g, m.genMarginalCost g * s.genP g t) +
    (∑ st, m.stMarginalCost st * s.stDischarge st t))

/-- The status/condition pair and optional result returned by one evaluation
call, as the notebooks read it: `status, condition = network.optimize()`. -/
structure OptReturn (n nG nS : ℕ) where
  status : String
  condition : String
  result : Option (OpSolution n nG nS)

/-- Modelled from the spec: the Operational Optimization evaluator's
observable outcomes.  It "reports status=ok, condition=optimal on success;
any other termination condition (infeasible, unbounded, solver-failed) is
surfaced verbatim to the caller as a non-fatal result (no exception), leaving
the Evaluation Result absent".  The `fault` parameter stands for the external
solver's own breakdown, which is outside the model data. -/
inductive Optimize (fault : Prop) {n nG nS : ℕ} (m : OpModel n nG nS) :
    OptReturn n nG nS → Prop where
  | success (s : OpSolution n nG nS) (hfeas : Feasible m s)
      (hopt : ∀ s2, Feasible m s2 → cost m s ≤ cost m s2) :
      Optimize fault m ⟨"ok", "optimal", some s⟩
  | infeasible (h : ∀ s, ¬ Feasible m s) :
      Optimize fault m ⟨"warning", "infeasible", none⟩
  | unbounded (h : ∀ B : ℚ, ∃ s, Feasible m s ∧ cost m s < B) :
      Optimize fault m ⟨"warning", "unbounded", none⟩
  | failure (h : fault) :
      Optimize fault m ⟨"warning", "solver-failed", none⟩

/-! ### The Solar Home System model of tutorial 08 -/

/-- Solar availability profile of tutorial 08 (`pv_profile`): zero at night,
peaking at midday. -/
def pvProfileList : List ℚ :=
  [0, 0, 0, 0, 0, 1/10, 3/10, 3/5, 4/5, 19/20, 1, 19/20,
   4/5, 3/5, 3/10, 1/10, 0, 0, 0, 0, 0, 0, 0, 0]

/-- Household load profile of tutorial 08 (`load_profile_kw`):
`[0.01]*6 + [0.02]*2 + [0.05]*4 + [0.02]*4 + [0.1]*4 + [0.05]*4`. -/
def loadProfileList : List ℚ :=
  [1/100, 1/100, 1/100, 1/100, 1/100, 1/100, 1/50, 1/50,
   1/20, 1/20, 1/20, 1/20, 1/50, 1/50, 1/50, 1/50,
   1/10, 1/10, 1/10, 1/10, 1/20, 1/20, 1/20, 1/20]

/-- The Solar Home System model assembled in tutorial 08: generator 0 is the
PV panel (p_nom 0.15, marginal cost 0, availability `pv_profile`), generator 1
is the unmet-load generator (p_nom 1, marginal cost 1000), and the single
store is the home battery (e_nom 1.2, p_nom 0.5, e_initial 0.5, e_min_pu 0.1,
e_max_pu 0.95, efficiency_store 0.9, efficiency_dispatch 0.9,
marginal cost 0.01, e_cyclic true). -/
def shsModel : OpModel 24 2 1 where
  genPNom := fun g => if g = 0 then 3/20 else 1
  genMarginalCost := fun g => if g = 0 then 0 else 1000
  genPMinPu := fun _ _ => 0
  genPMaxPu := fun g t => if g = 0 then pvProfileList.getD t.val 0 else 1
  stENom := fun _ => 6/5
  stPNom := fun _ => 1/2
  stEInitial := fun _ => 1/2
  stEMinPu := fun _ => 1/10
  stEMaxPu := fun _ => 19/20
  stEffStore := fun _ => 9/10
  stEffDispatch := fun _ => 9/10
  stMarginalCost := fun _ => 1/100
  stECyclic := fun _ => true
  load := fun t => loadProfileList.getD t.val 0

/-- A concrete feasible dispatch of the Solar Home System: the battery idles
at its initial state of energy and the unmet-load generator covers the whole
load. -/
def shsIdle : OpSolution 24 2 1 where
  genP := fun g t => if g = 0 then 0 else loadProfileList.getD t.val 0
  stCharge := fun _ _ => 0
  stDischarge := fun _ _ => 0
  stSoc := fun _ _ => 1/2

/-- Total dispatch of the unmet-load generator (generator 1) over the
horizon. -/
def unmetTotal (s : OpSolution 24 2 1) : ℚ := ∑ t, s.genP 1 t

/-- Total PV dispatch over the horizon. -/
def pvTotal (s : OpSolution 24 2 1) : ℚ := ∑ t, s.genP 0 t

/-- Total household load over the horizon (0.98 kWh). -/
def shsLoadTotal : ℚ := ∑ t, shsModel.load t

/-- Total PV energy available over the horizon: availability times nominal
power, summed (0.975 kWh). -/
def shsPvEnergyTotal : ℚ := ∑ t, shsModel.genPMaxPu 0 t * shsModel.genPNom 0

/-- The reading of "PV-plus-battery energy suffices to cover the load" in
which the battery contributes the energy it initially holds above its minimum
state of energy: total load at most total PV energy plus usable initial
battery energy. -/
def PvPlusBatterySuffices : Prop :=
  shsLoadTotal ≤ shsPvEnergyTotal +
    (shsModel.stEInitial 0 - shsModel.stEMinPu 0 * shsModel.stENom 0)

/-- Whether some feasible dispatch of the Solar Home System has zero total
unmet load. -/
def ZeroUnmetFeasible : Prop :=
  ∃ s, Feasible shsModel s ∧ unmetTotal s = 0

/-! ### Lossless DC power flow on the three-bus ring of tutorial 01 -/

/-- Static data of the tutorial 01 ring: one generator (p_nom 100,
p_min_pu 0.3, p_max_pu 1.0) at bus 0, one load (p_set 50) at bus 1, and three
identical lines (x 0.1, r 0.01, s_nom 100) closing the ring
bus i → bus (i+1) mod 3. -/
structure RingModel where
  genPNom : ℚ
  genPMinPu : ℚ
  genPMaxPu : ℚ
  loadP : ℚ
  lineX : ℚ
  lineR : ℚ
  lineSNom : ℚ

/-- The ring model of tutorial 01. -/
def ringModel : RingModel :=
  { genPNom := 100, genPMinPu := 3/10, genPMaxPu := 1, loadP := 50,
    lineX := 1/10, lineR := 1/100, lineSNom := 100 }

/-- A candidate steady state for the ring: voltage angles per bus and the
slack generator's dispatch at bus 0. -/
structure RingState where
  theta : Fin 3 → ℚ
  genP : ℚ

/-- Flow on line i (from bus i to bus (i+1) mod 3, as the notebook wires the
ring) in the lossless DC idealization: angle difference divided by
reactance. -/
def lineFlow (pf : RingState) (i : Fin 3) : ℚ :=
  (pf.theta i - pf.theta (i + 1)) / ringModel.lineX

/-- Net power injection at a bus: generation at bus 0 minus the fixed demand
at bus 1. -/
def injection (pf : RingState) (b : Fin 3) : ℚ :=
  (if b = 0 then pf.genP else 0) - (if b = 1 then ringModel.loadP else 0)

/-- Modelled from the spec: a converged lossless power-flow result for the
ring (the library `network.pf` solver is not in the repository's sources).
Each of the three buses balances (net injection equals outflow on its
departing line minus inflow on its arriving line), the generator respects its
dispatch limits, and no line exceeds its rating. -/
def DCConverged (pf : RingState) : Prop :=
  (injection pf 0 = lineFlow pf 0 - lineFlow pf 2) ∧
  (injection pf 1 = lineFlow pf 1 - lineFlow pf 0) ∧
  (injection pf 2 = lineFlow pf 2 - lineFlow pf 1) ∧
  (ringModel.genPMinPu * ringModel.genPNom ≤ pf.genP ∧
    pf.genP ≤ ringModel.genPMaxPu * ringModel.genPNom) ∧
  (|lineFlow pf 0| ≤ ringModel.lineSNom ∧ |lineFlow pf 1| ≤ ringModel.lineSNom ∧
    |lineFlow pf 2| ≤ ringModel.lineSNom)

/-- The exact solution of the ring's DC equations: angles 0, -10/3, -5/3 and
slack dispatch 50. -/
def ringSolution : RingState :=
  { theta := fun i =>
      match i with
      | 0 => 0
      | 1 => -(10/3)
      | 2 => -(5/3),
    genP := 50 }

/-! ### Model Builder (spec section 4.1), modelled from the spec -/

/-- Modelled from the spec: the error taxonomy of section 7. -/
inductive BuildError where
  | duplicateIdentifier
  | unknownNode
  | unknownComponent
  | unknownAttribute
  | invalidAttributeValue
  | invalidHorizon
  | noHorizonDefined
  | horizonMismatch
  deriving DecidableEq

/-- Modelled from the spec: the closed set of component kinds of
section 4.1. -/
inductive CompKind where
  | generator
  | load
  | line
  | link
  | storage
  deriving DecidableEq

/-- A typed component attached to one or two nodes, with named numeric
attributes. -/
structure Component where
  kind : CompKind
  id : String
  nodeRefs : List String
  attrs : List (String × ℚ)

/-- Modelled from the spec: the Model Builder's state — nodes, components,
the snapshot index, and the attached per-(component, attribute) time
series. -/
structure BuilderModel where
  nodes : List String
  comps : List Component
  snapshots : List ℚ
  series : List (String × String × List ℚ)

/-- An empty model: no nodes, no components, an empty snapshot index
(spec: `create_network()`). -/
def create_network : BuilderModel :=
  { nodes := [], comps := [], snapshots := [], series := [] }

/-- Modelled from the spec: `set_snapshots(labels)` replaces the snapshot
index; fails with `InvalidHorizon` if `labels` is empty or not strictly
increasing.  A failed call leaves the model unchanged. -/
def set_snapshots (m : BuilderModel) (labels : List ℚ) :
    BuilderModel × Option BuildError :=
  if labels = [] ∨ ¬ labels.Chain' (· < ·) then (m, some .invalidHorizon)
  else ({ m with snapshots := labels }, none)

/-- Modelled from the spec: `add_node(id, ...)` fails with
`DuplicateIdentifier` if `id` already exists within the model. -/
def add_node (m : BuilderModel) (id : String) :
    BuilderModel × Option BuildError :=
  if id ∈ m.nodes then (m, some .duplicateIdentifier)
  else ({ m with nodes := m.nodes ++ [id] }, none)

/-- Attribute names constrained to the interval [0, 1] (bounded fractions,
spec section 4.1). -/
def fractionAttrNames : List String :=
  ["p_min_pu", "p_max_pu", "s_max_pu", "e_min_pu", "e_max_pu",
   "efficiency_store", "efficiency_dispatch"]

/-- Attribute names required to be nonnegative (capacities and physical
parameters, spec section 4.1). -/
def nonnegativeAttrNames : List String :=
  ["p_nom", "e_nom", "s_nom", "p_set", "e_initial", "x", "r", "v_nom"]

/-- Modelled from the spec: one named attribute value is acceptable when a
bounded-fraction attribute lies in [0, 1] and a capacity-like attribute is
nonnegative. -/
def attrValueOk (a : String × ℚ) : Prop :=
  (a.1 ∈ fractionAttrNames → 0 ≤ a.2 ∧ a.2 ≤ 1) ∧
  (a.1 ∈ nonnegativeAttrNames → 0 ≤ a.2)

instance (a : String × ℚ) : Decidable (attrValueOk a) := by
  unfold attrValueOk; infer_instance

/-- Modelled from the spec: `add_component(kind, id, node_refs, attributes)`
fails with `UnknownNode` if any referenced node is absent, then with
`DuplicateIdentifier` if `id` already exists among components of any kind,
then with `InvalidAttributeValue` on a bad attribute value; a failed call
leaves the model unchanged. -/
def add_component (m : BuilderModel) (kind : CompKind) (id : String)
    (nodeRefs : List String) (attrs : List (String × ℚ)) :
    BuilderModel × Option BuildError :=
  if ¬ (∀ nd ∈ nodeRefs, nd ∈ m.nodes) then (m, some .unknownNode)
  else if id ∈ m.comps.map Component.id then (m, some .duplicateIdentifier)
  else if ¬ (∀ a ∈ attrs, attrValueOk a) then (m, some .invalidAttributeValue)
  else ({ m with comps := m.comps ++ [⟨kind, id, nodeRefs, attrs⟩] }, none)

/-- Attribute names that accept a time-varying value in the notebooks
(availability and set-points); static-only attributes reject time series. -/
def timeVaryingAttrNames : List String := ["p_min_pu", "p_max_pu", "p_set"]

/-- Modelled from the spec: `set_time_series(component_id, attribute_name,
values)` requires a known component, a time-varying attribute, an existing
snapshot index, and a values sequence whose length aligns exactly with the
snapshot index (else `HorizonMismatch`); a failed call leaves the model
unchanged, a successful one replaces the series for that pair. -/
def set_time_series (m : BuilderModel) (cid attr : String) (values : List ℚ) :
    BuilderModel × Option BuildError :=
  if ¬ cid ∈ m.comps.map Component.id then (m, some .unknownComponent)
  else if ¬ attr ∈ timeVaryingAttrNames then (m, some .unknownAttribute)
  else if m.snapshots = [] then (m, some .noHorizonDefined)
  else if values.length ≠ m.snapshots.length then (m, some .horizonMismatch)
  else ({ m with series :=
    (m.series.filter (fun e => ¬ (e.1 = cid ∧ e.2.1 = attr))) ++
      [(cid, attr, values)] }, none)

/-- The time series currently attached to a (component, attribute) pair, if
any. -/
def getTimeSeries (m : BuilderModel) (cid attr : String) : Option (List ℚ) :=
  (m.series.find? (fun e => e.1 = cid ∧ e.2.1 = attr)).map (fun e => e.2.2)

/-- One builder call, for reasoning about arbitrary call sequences. -/
inductive BuildOp where
  | node (id : String)
  | comp (kind : CompKind) (id : String) (nodeRefs : List String)
      (attrs : List (String × ℚ))

/-- Apply one builder call. -/
def applyOp (m : BuilderModel) : BuildOp → BuilderModel × Option BuildError
  | .node id => add_node m id
  | .comp kind id nodeRefs attrs => add_component m kind id nodeRefs attrs

/-- Apply a sequence of builder calls, keeping the prior model on each failed
call (spec: each operation either fully succeeds or makes no change). -/
def applyOps (m : BuilderModel) : List BuildOp → BuilderModel
  | [] => m
  | op :: rest => applyOps (applyOp m op).1 rest

/-- A small concrete builder model: one node, one generator, a three-point
snapshot index, and an attached availability series. -/
def demoModel : BuilderModel :=
  { nodes := ["bus 0"],
    comps := [⟨.generator, "gas", ["bus 0"], [("p_nom", 100)]⟩],
    snapshots := [0, 1, 2],
    series := [("gas", "p_max_pu", [1, 1, 1])] }

/-! ### Evaluation frame (spec section 4.3) and the tutorial 01 power-flow
cell -/

/-- The three analysis modes of the Evaluator (spec section 4.3). -/
inductive EvalMode where
  | powerFlow
  | operational
  | investment

/-- A model instance together with the most recent Evaluation Result, the
state an evaluation call acts on. -/
structure SystemState (n nG nS : ℕ) (ρ : Type) where
  model : OpModel n nG nS
  lastResult : Option ρ

/-- Modelled from the spec: running an evaluation in any mode borrows the
model read-only and writes only a fresh Evaluation Result ("no mode mutates
the model's static attributes; each writes only a fresh Evaluation
Result"). -/
def runEvaluation {n nG nS : ℕ} {ρ : Type} (_ : EvalMode)
    (st : SystemState n nG nS ρ) (r : ρ) : SystemState n nG nS ρ :=
  { model := st.model, lastResult := some r }

/-- What one call of `network.pf()` does, as seen by the tutorial 01 cell
that wraps it: either it returns result tables or it raises with a
message. -/
inductive PFCallOutcome where
  | success (linePowers busVoltages : List (List ℚ))
  | raises (msg : String)

/-- What the tutorial 01 evaluation cell produces: printed lines, and the
exception it lets escape, if any. -/
structure CellRun where
  printed : List String
  raised : Option String

/-- The tutorial 01 power-flow cell: `try: network.pf(); print(...)
except Exception as e: print(f"Error during power flow calculation: ...")`.
Transcribed from `01_getting_started.ipynb`; table rendering is elided,
the printed header lines and the caught-path message are kept. -/
def powerFlowStep (pf : PFCallOutcome) : CellRun :=
  match pf with
  | .success _ _ =>
      { printed :=
          ["Power flows on lines (positive values indicate flow from bus0 to bus1):",
           "\nBus voltages (p.u.):"],
        raised := none }
  | .raises msg =>
      { printed := ["Error during power flow calculation: " ++ msg],
        raised := none }

/-- The return value of an evaluation whose external solver broke down, used
to exercise the status contract at a concrete input. -/
def solverFailReturn : OptReturn 24 2 1 :=
  { status := "warning", condition := "solver-failed", result := none }

/-! ### Helper lemmas -/

/-- Every entry of the load profile is nonnegative. -/
lemma loadList_nonneg : ∀ x ∈ loadProfileList, 0 ≤ x := by
  norm_num [loadProfileList]

/-- Every entry of the load profile is at most 1 (the unmet-load generator's
per-unit limit). -/
lemma loadList_le_one : ∀ x ∈ loadProfileList, x ≤ 1 := by
  norm_num [loadProfileList]

/-- Every entry of the solar availability profile is nonnegative. -/
lemma pvList_nonneg : ∀ x ∈ pvProfileList, 0 ≤ x := by
  norm_num [pvProfileList]

/-- A list with nonnegative entries has nonnegative lookups under default
zero. -/
lemma getDq_nonneg {l : List ℚ} (h : ∀ x ∈ l, 0 ≤ x) (i : ℕ) : 0 ≤ l[i]?.getD 0 := by
  rw [← List.getD_eq_getElem?_getD]
  rcases Nat.lt_or_ge i l.length with hi | hi
  · rw [List.getD_eq_getElem l 0 hi]
    exact h _ (List.getElem_mem hi)
  · rw [List.getD_eq_default l 0 hi]

/-- A list bounded above by a nonnegative constant has lookups bounded by
that constant under default zero. -/
lemma getDq_le {l : List ℚ} {c : ℚ} (h : ∀ x ∈ l, x ≤ c) (hc : 0 ≤ c) (i : ℕ) :
    l[i]?.getD 0 ≤ c := by
  rw [← List.getD_eq_getElem?_getD]
  rcases Nat.lt_or_ge i l.length with hi | hi
  · rw [List.getD_eq_getElem l 0 hi]
    exact h _ (List.getElem_mem hi)
  · rw [List.getD_eq_default l 0 hi]
    exact hc

/-- The idle dispatch respects both generators' limits. -/
lemma shsIdle_gen (g : Fin 2) (t : Fin 24) :
    shsModel.genPMinPu g t * shsModel.genPNom g ≤ shsIdle.genP g t ∧
    shsIdle.genP g t ≤ shsModel.genPMaxPu g t * shsModel.genPNom g := by
  fin_cases g
  · constructor
    · simp [shsModel, shsIdle]
    · simp [shsModel, shsIdle]
      exact getDq_nonneg pvList_nonneg t.val
  · constructor
    · simp [shsModel, shsIdle]
      exact getDq_nonneg loadList_nonneg t.val
    · simp [shsModel, shsIdle]
      exact getDq_le loadList_le_one (by norm_num) t.val

/-- The idle dispatch balances every snapshot: the unmet-load generator
covers the load exactly. -/
lemma shsIdle_balance (t : Fin 24) :
    (∑ g, shsIdle.genP g t) +
      (∑ st, (shsIdle.stDischarge st t - shsIdle.stCharge st t)) = shsModel.load t := by
  simp [Fin.sum_univ_two, Fin.sum_univ_one, shsModel, shsIdle]

/-- The Solar Home System model is feasible: the idle dispatch satisfies
every operational constraint. -/
lemma shsIdle_feasible : Feasible shsModel shsIdle := by
  refine ⟨shsIdle_gen, ?_, ?_, ?_, ?_, ?_, shsIdle_balance⟩
  · intro st t
    norm_num [shsModel, shsIdle]
  · intro st
    simp [shsModel, shsIdle]
  · intro st t
    norm_num [shsModel, shsIdle, roundTrip]
  · intro st t
    norm_num [shsModel, shsIdle]
  · intro st _
    simp [shsIdle]

/-- Discrete telescoping: a sequence whose steps are given by `g` reaches
`f 0` plus the sum of the steps. -/
lemma telescope_nat (f g : ℕ → ℚ) : ∀ n : ℕ, (∀ i, i < n → f (i+1) = f i + g i) →
    f n = f 0 + ∑ i in Finset.range n, g i := by
  intro n
  induction n with
  | zero => simp
  | succ n ih =>
      intro h
      rw [Finset.sum_range_succ, h n n.lt_succ_self,
        ih (fun i hi => h i (Nat.lt_succ_of_lt hi))]
      ring

/-- Summing the state-of-energy continuity constraint over the horizon: the
final state of energy is the initial one plus the round-trip-scaled net
charge. -/
lemma soc_telescope {n nG nS : ℕ} (m : OpModel n nG nS) (s : OpSolution n nG nS)
    (h : ∀ st (t : Fin n), s.stSoc st t.succ =
      s.stSoc st t.castSucc + roundTrip m st * (s.stCharge st t - s.stDischarge st t))
    (st : Fin nS) :
    s.stSoc st (Fin.last n) = s.stSoc st 0 +
      roundTrip m st * ∑ t, (s.stCharge st t - s.stDischarge st t) := by
  have key := telescope_nat
    (fun i => s.stSoc st ⟨min i n, Nat.lt_succ_of_le (Nat.min_le_right i n)⟩)
    (fun i => if hi : i < n then
      roundTrip m st * (s.stCharge st ⟨i, hi⟩ - s.stDischarge st ⟨i, hi⟩) else 0)
    n ?_
  · have hlast : (⟨min n n, Nat.lt_succ_of_le (Nat.min_le_right n n)⟩ : Fin (n+1)) =
        Fin.last n := Fin.ext (by simp)
    have hzero : (⟨min 0 n, Nat.lt_succ_of_le (Nat.min_le_right 0 n)⟩ : Fin (n+1)) =
        (0 : Fin (n+1)) := Fin.ext (by simp)
    rw [hlast, hzero] at key
    rw [key]
    congr 1
    rw [← Fin.sum_univ_eq_sum_range]
    rw [Finset.mul_sum]
    refine Finset.sum_congr rfl (fun t _ => ?_)
    rw [dif_pos t.isLt]
  · intro i hi
    have e1 : (⟨min (i+1) n, Nat.lt_succ_of_le (Nat.min_le_right (i+1) n)⟩ : Fin (n+1)) =
        (⟨i, hi⟩ : Fin n).succ := Fin.ext (by simp [Nat.min_eq_left (Nat.succ_le_of_lt hi)])
    have e2 : (⟨min i n, Nat.lt_succ_of_le (Nat.min_le_right i n)⟩ : Fin (n+1)) =
        (⟨i, hi⟩ : Fin n).castSucc := Fin.ext (by simp [Nat.min_eq_left (Nat.le_of_lt hi)])
    simp only [e1, e2, dif_pos hi]
    exact h st ⟨i, hi⟩

/-- The total household load over the day is 0.98 kWh. -/
lemma shsLoadTotal_eq : shsLoadTotal = 49/50 := by
  simp [shsLoadTotal, shsModel, loadProfileList, Fin.sum_univ_succ]
  norm_num

/-- The total PV energy available over the day is 0.975 kWh — strictly less
than the 0.98 kWh load. -/
lemma shsPvEnergyTotal_eq : shsPvEnergyTotal = 39/40 := by
  simp [shsPvEnergyTotal, shsModel, pvProfileList, Fin.sum_univ_succ]
  norm_num

/-- Because the battery is cyclic, its net energy exchange over the horizon
is zero in every feasible dispatch. -/
lemma shs_store_net_zero (s : OpSolution 24 2 1) (hf : Feasible shsModel s) :
    ∑ t, (s.stDischarge 0 t - s.stCharge 0 t) = 0 := by
  have htel := soc_telescope shsModel s hf.socContinuity 0
  have hcyc := hf.socCyclic 0 (by simp [shsModel])
  rw [hcyc] at htel
  have hrt : roundTrip shsModel 0 = 81/100 := by norm_num [roundTrip, shsModel]
  rw [hrt] at htel
  have h1 : ∑ t, (s.stCharge 0 t - s.stDischarge 0 t) =
      (∑ t, s.stCharge 0 t) - ∑ t, s.stDischarge 0 t := Finset.sum_sub_distrib
  have h2 : ∑ t, (s.stDischarge 0 t - s.stCharge 0 t) =
      (∑ t, s.stDischarge 0 t) - ∑ t, s.stCharge 0 t := Finset.sum_sub_distrib
  rw [h1] at htel
  rw [h2]
  linarith

/-- PV dispatch is limited by the availability profile: at most 0.975 kWh
over the day. -/
lemma shs_pv_le (s : OpSolution 24 2 1) (hf : Feasible shsModel s) :
    pvTotal s ≤ 39/40 := by
  calc pvTotal s ≤ ∑ t, shsModel.genPMaxPu 0 t * shsModel.genPNom 0 :=
        Finset.sum_le_sum (fun t _ => (hf.genWithinLimits 0 t).2)
    _ = 39/40 := shsPvEnergyTotal_eq

/-- In every feasible dispatch of the Solar Home System the unmet-load
generator delivers at least 0.005 kWh: the load exceeds the available PV
energy and the cyclic battery contributes no net energy. -/
lemma shs_unmet_lower (s : OpSolution 24 2 1) (hf : Feasible shsModel s) :
    1/200 ≤ unmetTotal s := by
  have hbal : ∑ t, ((∑ g, s.genP g t) +
      (∑ st, (s.stDischarge st t - s.stCharge st t))) = ∑ t, shsModel.load t :=
    Finset.sum_congr rfl (fun t _ => hf.powerBalance t)
  simp only [Fin.sum_univ_two, Fin.sum_univ_one] at hbal
  rw [Finset.sum_add_distrib, Finset.sum_add_distrib] at hbal
  have hload : ∑ t, shsModel.load t = 49/50 := shsLoadTotal_eq
  have hnet := shs_store_net_zero s hf
  have hpv := shs_pv_le s hf
  unfold pvTotal at hpv
  unfold unmetTotal
  rw [hload, hnet] at hbal
  linarith

/-- All marginal costs of the Solar Home System are nonnegative, so every
feasible dispatch has nonnegative cost; the operational solve is bounded
below. -/
lemma shs_cost_nonneg (s : OpSolution 24 2 1) (hf : Feasible shsModel s) :
    0 ≤ cost shsModel s := by
  unfold cost
  refine Finset.sum_nonneg (fun t _ => add_nonneg
    (Finset.sum_nonneg fun g _ => ?_) (Finset.sum_nonneg fun st _ => ?_))
  · have h0 := (hf.genWithinLimits g t).1
    have hz : shsModel.genPMinPu g t * shsModel.genPNom g = 0 := by simp [shsModel]
    rw [hz] at h0
    have hmc : 0 ≤ shsModel.genMarginalCost g := by
      fin_cases g <;> norm_num [shsModel]
    exact mul_nonneg hmc h0
  · have hd := (hf.storePowerWithinLimits st t).2.2.1
    have hmc : 0 ≤ shsModel.stMarginalCost st := by norm_num [shsModel]
    exact mul_nonneg hmc hd

/-- The Solar Home System solve is feasible and bounded, so the evaluator can
only return status ok with condition optimal (assuming the external solver
itself does not break down). -/
lemma shs_optimize_ok (r : OptReturn 24 2 1) (h : Optimize False shsModel r) :
    r.status = "ok" ∧ r.condition = "optimal" := by
  cases h with
  | success s hfeas hopt => exact ⟨rfl, rfl⟩
  | infeasible h => exact absurd shsIdle_feasible (h shsIdle)
  | unbounded h =>
      obtain ⟨s, hfeas, hlt⟩ := h 0
      exact absurd hlt (not_lt.mpr (shs_cost_nonneg s hfeas))
  | failure h => exact h.elim

/-! ### Claim theorems -/

/-- C1: In Operational Optimization mode, for every storage component and
every pair of consecutive snapshots t, t+1, the state of energy at t+1 equals
the state of energy at t plus the net charge scaled by the round-trip
efficiency, and at every snapshot the state of energy lies between the
configured minimum and maximum fractions of nominal capacity; the tutorial
battery has min fraction 0.1, max fraction 0.95, capacity 1.2 and
efficiencies 0.9/0.9.  Stated for every dispatch the mode accepts (every
feasible dispatch, hence also every returned optimal one). -/
theorem C1_operationalSocContinuityAndBounds {n nG nS : ℕ} (m : OpModel n nG nS)
    (s : OpSolution n nG nS) (hfeas : Feasible m s) :
    (∀ st (t : Fin n), s.stSoc st t.succ = s.stSoc st t.castSucc +
      m.stEffStore st * m.stEffDispatch st * (s.stCharge st t - s.stDischarge st t)) ∧
    (∀ st t, m.stEMinPu st * m.stENom st ≤ s.stSoc st t ∧
      s.stSoc st t ≤ m.stEMaxPu st * m.stENom st) ∧
    (shsModel.stEMinPu 0 = 1/10 ∧ shsModel.stEMaxPu 0 = 19/20 ∧
      shsModel.stENom 0 = 6/5 ∧ shsModel.stEffStore 0 = 9/10 ∧
      shsModel.stEffDispatch 0 = 9/10) :=
  ⟨fun st t => hfeas.socContinuity st t, hfeas.socWithinBounds,
    rfl, rfl, rfl, rfl, rfl⟩

/-- Witness for C1 at the tutorial battery: the idle dispatch of the Solar
Home System satisfies the continuity equation at the first snapshot pair and
the bounds at the initial snapshot. -/
theorem C1_witness_tutorialBattery :
    (shsIdle.stSoc 0 (0 : Fin 24).succ = shsIdle.stSoc 0 (0 : Fin 24).castSucc +
      shsModel.stEffStore 0 * shsModel.stEffDispatch 0 *
        (shsIdle.stCharge 0 0 - shsIdle.stDischarge 0 0)) ∧
    (shsModel.stEMinPu 0 * shsModel.stENom 0 ≤ shsIdle.stSoc 0 0 ∧
      shsIdle.stSoc 0 0 ≤ shsModel.stEMaxPu 0 * shsModel.stENom 0) := by
  have h := C1_operationalSocContinuityAndBounds shsModel shsIdle shsIdle_feasible
  exact ⟨h.1 0 0, h.2.1 0 0⟩

/-- C2 (amended): the Solar Home System solve is feasible and bounded, so the
run reports status ok and condition optimal, and in every feasible (hence
every optimal) dispatch the battery state of energy stays within the
configured [0.1, 0.95] fractions of capacity; but the unmet-load generator's
total dispatch is at least 0.005 kWh — exactly the gap between the 0.98 kWh
load and the 0.975 kWh of available PV energy — because the cyclic battery
contributes no net energy over the horizon. -/
theorem C2_shsOperationalRun :
    Feasible shsModel shsIdle ∧
    (∀ r, Optimize False shsModel r → r.status = "ok" ∧ r.condition = "optimal") ∧
    (∀ s, Feasible shsModel s → ∀ t,
      shsModel.stEMinPu 0 * shsModel.stENom 0 ≤ s.stSoc 0 t ∧
      s.stSoc 0 t ≤ shsModel.stEMaxPu 0 * shsModel.stENom 0) ∧
    (∀ s, Feasible shsModel s → 1/200 ≤ unmetTotal s) ∧
    shsLoadTotal - shsPvEnergyTotal = 1/200 :=
  ⟨shsIdle_feasible, shs_optimize_ok, fun s hf t => hf.socWithinBounds 0 t,
    shs_unmet_lower, by rw [shsLoadTotal_eq, shsPvEnergyTotal_eq]; norm_num⟩

/-- Counterexample to C2 as stated: PV-plus-battery energy does suffice to
cover the load in the static sense (0.975 kWh of PV plus 0.38 kWh of usable
initial battery energy exceeds the 0.98 kWh load), yet no feasible dispatch
of the Solar Home System has zero total unmet load, so the returned optimal
dispatch cannot have zero unmet-load generation either. -/
theorem C2_zeroUnmetCounterexample : PvPlusBatterySuffices ∧ ¬ ZeroUnmetFeasible := by
  constructor
  · unfold PvPlusBatterySuffices
    rw [shsLoadTotal_eq, shsPvEnergyTotal_eq]
    norm_num [shsModel]
  · rintro ⟨s, hf, hz⟩
    have h := shs_unmet_lower s hf
    rw [hz] at h
    norm_num at h

/-- C3: Power-Flow mode on the three-node ring of tutorial 01 converges, the
slack generator dispatches exactly the 50 MW load (lossless idealization),
and the flow splits per the line impedances: the direct line carries 100/3 MW
and each line of the two-hop path carries 50/3 MW — twice the impedance, half
the flow. -/
theorem C3_ringPowerFlow :
    DCConverged ringSolution ∧
    ringSolution.genP = 50 ∧
    ringSolution.genP = ringModel.loadP ∧
    lineFlow ringSolution 0 = 100/3 ∧
    lineFlow ringSolution 1 = -(50/3) ∧
    lineFlow ringSolution 2 = -(50/3) ∧
    lineFlow ringSolution 0 = -(2 * lineFlow ringSolution 1) := by
  refine ⟨?_, rfl, rfl, ?_, ?_, ?_, ?_⟩ <;>
    · simp only [DCConverged, injection, lineFlow, ringSolution, ringModel]
      norm_num [abs_le, show ((2:Fin 3)) ≠ 0 from by decide,
        show ((2:Fin 3)) ≠ 1 from by decide]

/-- C4: every evaluation outcome is returned as a status/condition value, not
an exception: success is exactly status ok with condition optimal and carries
an optimal result; infeasible, unbounded and solver-failed are surfaced as
values with a warning status and no result (the Evaluation Result is
absent). -/
theorem C4_optimizeStatusContract {n nG nS : ℕ} (fault : Prop) (m : OpModel n nG nS)
    (r : OptReturn n nG nS) (h : Optimize fault m r) :
    (r.status = "ok" ∧ r.condition = "optimal" ∨
      r.status = "warning" ∧ (r.condition = "infeasible" ∨ r.condition = "unbounded" ∨
        r.condition = "solver-failed")) ∧
    ((∃ s, r.result = some s) → r.status = "ok" ∧ r.condition = "optimal") ∧
    (¬ (r.status = "ok" ∧ r.condition = "optimal") → r.result = none) ∧
    (r.status = "ok" ∧ r.condition = "optimal" → ∃ s, r.result = some s ∧ Feasible m s ∧
      ∀ s2, Feasible m s2 → cost m s ≤ cost m s2) := by
  cases h with
  | success s hf ho =>
      exact ⟨Or.inl ⟨rfl, rfl⟩, fun _ => ⟨rfl, rfl⟩,
        fun hne => absurd ⟨rfl, rfl⟩ hne, fun _ => ⟨s, rfl, hf, ho⟩⟩
  | infeasible hinf =>
      refine ⟨Or.inr ⟨rfl, Or.inl rfl⟩, ?_, fun _ => rfl, ?_⟩
      · rintro ⟨s, hs⟩
        exact Option.noConfusion hs
      · rintro ⟨hok, _⟩
        exact ((by decide : ¬ ("warning" : String) = "ok") hok).elim
  | unbounded hunb =>
      refine ⟨Or.inr ⟨rfl, Or.inr (Or.inl rfl)⟩, ?_, fun _ => rfl, ?_⟩
      · rintro ⟨s, hs⟩
        exact Option.noConfusion hs
      · rintro ⟨hok, _⟩
        exact ((by decide : ¬ ("warning" : String) = "ok") hok).elim
  | failure hft =>
      refine ⟨Or.inr ⟨rfl, Or.inr (Or.inr rfl)⟩, ?_, fun _ => rfl, ?_⟩
      · rintro ⟨s, hs⟩
        exact Option.noConfusion hs
      · rintro ⟨hok, _⟩
        exact ((by decide : ¬ ("warning" : String) = "ok") hok).elim

/-- Witness for C4: the contract instantiated at a concrete solver-failed
return of the Solar Home System evaluation. -/
theorem C4_witness_solverFailedReturn :
    (solverFailReturn.status = "ok" ∧ solverFailReturn.condition = "optimal" ∨
      solverFailReturn.status = "warning" ∧ (solverFailReturn.condition = "infeasible" ∨
        solverFailReturn.condition = "unbounded" ∨
        solverFailReturn.condition = "solver-failed")) ∧
    ((∃ s, solverFailReturn.result = some s) → solverFailReturn.status = "ok" ∧
      solverFailReturn.condition = "optimal") ∧
    (¬ (solverFailReturn.status = "ok" ∧ solverFailReturn.condition = "optimal") →
      solverFailReturn.result = none) ∧
    (solverFailReturn.status = "ok" ∧ solverFailReturn.condition = "optimal" →
      ∃ s, solverFailReturn.result = some s ∧ Feasible shsModel s ∧
        ∀ s2, Feasible shsModel s2 → cost shsModel s ≤ cost shsModel s2) :=
  C4_optimizeStatusContract True shsModel solverFailReturn (Optimize.failure trivial)

/-- C5: with a known component, a time-varying attribute and a set snapshot
index, set_time_series succeeds exactly when the values sequence has the
snapshot index's length; any other length fails with HorizonMismatch and
leaves the model — in particular the prior time series of that
(component, attribute) pair — unchanged. -/
theorem C5_setTimeSeriesHorizonMismatch (m : BuilderModel) (cid attr : String)
    (values : List ℚ)
    (hc : cid ∈ m.comps.map Component.id)
    (ha : attr ∈ timeVaryingAttrNames)
    (hs : m.snapshots ≠ []) :
    ((set_time_series m cid attr values).2 = none ↔
      values.length = m.snapshots.length) ∧
    (values.length ≠ m.snapshots.length →
      (set_time_series m cid attr values).2 = some .horizonMismatch ∧
      (set_time_series m cid attr values).1 = m ∧
      getTimeSeries (set_time_series m cid attr values).1 cid attr =
        getTimeSeries m cid attr) := by
  unfold set_time_series
  rw [if_neg (not_not_intro hc), if_neg (not_not_intro ha), if_neg hs]
  by_cases hlen : values.length = m.snapshots.length
  · rw [if_neg (not_not_intro hlen)]
    exact ⟨⟨fun _ => hlen, fun _ => rfl⟩, fun hne => absurd hlen hne⟩
  · rw [if_pos hlen]
    exact ⟨⟨fun h => Option.noConfusion h, fun h => absurd h hlen⟩,
      fun _ => ⟨rfl, rfl, rfl⟩⟩

/-- Witness for C5: on the demo model (three snapshots), attaching a
two-value series to the gas generator's availability fails with
HorizonMismatch and leaves the model unchanged. -/
theorem C5_witness_demoModel :
    ((set_time_series demoModel "gas" "p_max_pu" [1, 2]).2 = none ↔
      ([1, 2] : List ℚ).length = demoModel.snapshots.length) ∧
    (([1, 2] : List ℚ).length ≠ demoModel.snapshots.length →
      (set_time_series demoModel "gas" "p_max_pu" [1, 2]).2 = some .horizonMismatch ∧
      (set_time_series demoModel "gas" "p_max_pu" [1, 2]).1 = demoModel ∧
      getTimeSeries (set_time_series demoModel "gas" "p_max_pu" [1, 2]).1
          "gas" "p_max_pu" =
        getTimeSeries demoModel "gas" "p_max_pu") :=
  C5_setTimeSeriesHorizonMismatch demoModel "gas" "p_max_pu" [1, 2]
    (by simp [demoModel]) (by simp [timeVaryingAttrNames]) (by simp [demoModel])

/-- C6: after any sequence of add_node/add_component calls, adding a
component that references an absent node fails with UnknownNode and leaves
the model — in particular its node count and component count — unchanged. -/
theorem C6_addComponentUnknownNode (ops : List BuildOp) (kind : CompKind)
    (id nd : String) (nodeRefs : List String) (attrs : List (String × ℚ))
    (hmem : nd ∈ nodeRefs) (habs : nd ∉ (applyOps create_network ops).nodes) :
    (add_component (applyOps create_network ops) kind id nodeRefs attrs).2 =
      some .unknownNode ∧
    (add_component (applyOps create_network ops) kind id nodeRefs attrs).1 =
      applyOps create_network ops ∧
    (add_component (applyOps create_network ops) kind id nodeRefs attrs).1.nodes.length =
      (applyOps create_network ops).nodes.length ∧
    (add_component (applyOps create_network ops) kind id nodeRefs attrs).1.comps.length =
      (applyOps create_network ops).comps.length := by
  unfold add_component
  rw [if_pos]
  · exact ⟨rfl, rfl, rfl, rfl⟩
  · intro hall
    exact habs (hall nd hmem)

/-- Witness for C6: after adding node "bus 0", adding a generator attached to
the absent node "bus 9" fails with UnknownNode and changes nothing. -/
theorem C6_witness_missingNode :
    (add_component (applyOps create_network [.node "bus 0"]) .generator "gas"
      ["bus 9"] []).2 = some .unknownNode ∧
    (add_component (applyOps create_network [.node "bus 0"]) .generator "gas"
      ["bus 9"] []).1 = applyOps create_network [.node "bus 0"] ∧
    (add_component (applyOps create_network [.node "bus 0"]) .generator "gas"
      ["bus 9"] []).1.nodes.length =
      (applyOps create_network [.node "bus 0"]).nodes.length ∧
    (add_component (applyOps create_network [.node "bus 0"]) .generator "gas"
      ["bus 9"] []).1.comps.length =
      (applyOps create_network [.node "bus 0"]).comps.length :=
  C6_addComponentUnknownNode [.node "bus 0"] .generator "gas" "bus 9" ["bus 9"] []
    (by simp) (by simp [applyOps, applyOp, add_node, create_network])

/-- C7: set_snapshots replaces the snapshot index exactly when the labels are
non-empty and strictly increasing, and fails with InvalidHorizon — leaving
the model unchanged — whenever the labels are empty or not strictly
increasing, for every model state. -/
theorem C7_setSnapshotsInvalidHorizon (m : BuilderModel) (labels : List ℚ) :
    (labels ≠ [] ∧ labels.Chain' (· < ·) →
      set_snapshots m labels = ({ m with snapshots := labels }, none)) ∧
    (labels = [] ∨ ¬ labels.Chain' (· < ·) →
      set_snapshots m labels = (m, some .invalidHorizon)) := by
  unfold set_snapshots
  constructor
  · rintro ⟨h1, h2⟩
    rw [if_neg]
    rintro (h | h)
    · exact h1 h
    · exact h h2
  · intro h
    rw [if_pos h]

/-- C8: running an evaluation in any of the three modes leaves every static
attribute of the model equal to its pre-evaluation value and writes only a
fresh Evaluation Result. -/
theorem C8_evaluationPreservesStatics {n nG nS : ℕ} {ρ : Type} (mode : EvalMode)
    (st : SystemState n nG nS ρ) (r : ρ) :
    (runEvaluation mode st r).model = st.model ∧
    (∀ g, (runEvaluation mode st r).model.genPNom g = st.model.genPNom g) ∧
    (∀ s, (runEvaluation mode st r).model.stENom s = st.model.stENom s) ∧
    (∀ t, (runEvaluation mode st r).model.load t = st.model.load t) ∧
    (runEvaluation mode st r).lastResult = some r :=
  ⟨rfl, fun _ => rfl, fun _ => rfl, fun _ => rfl, rfl⟩

/-- C9: the tutorial battery is declared cyclic with e_initial 0.5 on a
1.2 kWh capacity, so in every feasible (hence every optimal) dispatch the
state of energy at the end of the horizon equals the one at the start, and
that level is 0.5 kWh — 5/12 of capacity, not one half of capacity. -/
theorem C9_cyclicBatteryInitialSoc :
    shsModel.stECyclic 0 = true ∧
    shsModel.stEInitial 0 = 1/2 ∧
    shsModel.stENom 0 = 6/5 ∧
    shsModel.stEInitial 0 = 5/12 * shsModel.stENom 0 ∧
    shsModel.stEInitial 0 ≠ 1/2 * shsModel.stENom 0 ∧
    (∀ s, Feasible shsModel s →
      s.stSoc 0 (Fin.last 24) = s.stSoc 0 0 ∧ s.stSoc 0 0 = 1/2) := by
  refine ⟨rfl, rfl, rfl, by norm_num [shsModel], by norm_num [shsModel],
    fun s hf => ⟨hf.socCyclic 0 rfl, ?_⟩⟩
  have h := hf.socInitial 0
  simpa [shsModel] using h

/-- C10: the tutorial 01 power-flow cell wraps network.pf in a try/except
over all exceptions; whatever the call does, the step returns normally with
no propagated exception, and on a raise it prints the error message. -/
theorem C10_powerFlowStepCatches (pf : PFCallOutcome) :
    (powerFlowStep pf).raised = none ∧
    (∀ msg, pf = .raises msg →
      (powerFlowStep pf).printed = ["Error during power flow calculation: " ++ msg]) := by
  cases pf <;> simp [powerFlowStep]
